import Mathlib

/-
Verification development for the Stripe webhook ingestion Lambda
(src/lambda/lamda-function.py).

The embedding models:
  * parsed JSON payload values (Python objects produced by json parsing),
    with Python truthiness and the `x or y` idiom;
  * hashlib SHA-256 (executable, over Nat byte lists) and `sha256_token`;
  * `get_raw_body` (base64 / utf-8 body reconstruction);
  * `lambda_handler`, with the vendor verification capability
    (stripe.Webhook.construct_event) abstracted as a parameter that either
    returns the parsed top-level event mapping, raises
    SignatureVerificationError, or raises any other exception;
  * unhandled Python exceptions (AttributeError on attribute access of a
    non-mapping value, binascii errors) as a `crash` outcome distinct from a
    returned HTTP response.

The handler result records the response (or crash), the list of emitted
Normalized Event JSON documents (the source prints exactly one on the
success path), and the outcome of the verification call (`none` when
verification was never attempted).
-/

namespace StripeWebhook

/-- JSON-like values as produced by parsing the webhook payload (numbers are
modelled as integers: the payload's monetary amounts are minor-unit
integers). -/
inductive Json where
  | null : Json
  | bool : Bool → Json
  | int : Int → Json
  | str : String → Json
  | arr : List Json → Json
  | obj : List (String × Json) → Json

/-- Python truthiness of a parsed JSON value (None, False, 0, empty string,
empty list and empty dict are falsy). -/
def Json.isTruthy : Json → Bool
  | .null => false
  | .bool b => b
  | .int n => n != 0
  | .str s => s != ""
  | .arr xs => !xs.isEmpty
  | .obj fs => !fs.isEmpty

/-- Whether a JSON value is an integer. -/
def Json.isInt : Json → Bool
  | .int _ => true
  | _ => false

/-- Python `x == s` for a string literal s: only a string with the same
contents compares equal. -/
def isStrEq : Json → String → Bool
  | .str s, t => s == t
  | _, _ => false

/-- Python `d.get(k)` on a dict holding JSON values: the mapped value, or
None when the key is absent. -/
def dictGet (fs : List (String × Json)) (k : String) : Json :=
  match fs with
  | [] => .null
  | (n, v) :: rest => if n = k then v else dictGet rest k

/-- Python `a or b` on JSON values. -/
def pyOr (a b : Json) : Json :=
  if a.isTruthy then a else b

/-- List concatenation of the images of f (used for byte/char flattening). -/
def listFlat (f : α → List β) : List α → List β
  | [] => []
  | a :: as => f a ++ listFlat f as

-- ===================== SHA-256 (hashlib.sha256 ... hexdigest) =============

/-- Addition modulo 2^32. -/
def add32 (a b : Nat) : Nat := (a + b) % 4294967296

/-- Right rotation of a 32-bit word. -/
def rotr (n x : Nat) : Nat := ((x >>> n) ||| (x <<< (32 - n))) % 4294967296

/-- SHA-256 Ch(x,y,z). -/
def shaCh (x y z : Nat) : Nat := (x &&& y) ^^^ ((x ^^^ 4294967295) &&& z)

/-- SHA-256 Maj(x,y,z). -/
def shaMaj (x y z : Nat) : Nat := (x &&& y) ^^^ (x &&& z) ^^^ (y &&& z)

/-- SHA-256 Σ0. -/
def bigSigma0 (x : Nat) : Nat := rotr 2 x ^^^ rotr 13 x ^^^ rotr 22 x

/-- SHA-256 Σ1. -/
def bigSigma1 (x : Nat) : Nat := rotr 6 x ^^^ rotr 11 x ^^^ rotr 25 x

/-- SHA-256 σ0. -/
def smallSigma0 (x : Nat) : Nat := rotr 7 x ^^^ rotr 18 x ^^^ (x >>> 3)

/-- SHA-256 σ1. -/
def smallSigma1 (x : Nat) : Nat := rotr 17 x ^^^ rotr 19 x ^^^ (x >>> 10)

/-- SHA-256 round constants (decimal). -/
def shaK : List Nat :=
  [1116352408, 1899447441, 3049323471, 3921009573, 961987163, 1508970993,
   2453635748, 2870763221, 3624381080, 310598401, 607225278, 1426881987,
   1925078388, 2162078206, 2614888103, 3248222580, 3835390401, 4022224774,
   264347078, 604807628, 770255983, 1249150122, 1555081692, 1996064986,
   2554220882, 2821834349, 2952996808, 3210313671, 3336571891, 3584528711,
   113926993, 338241895, 666307205, 773529912, 1294757372, 1396182291,
   1695183700, 1986661051, 2177026350, 2456956037, 2730485921, 2820302411,
   3259730800, 3345764771, 3516065817, 3600352804, 4094571909, 275423344,
   430227734, 506948616, 659060556, 883997877, 958139571, 1322822218,
   1537002063, 1747873779, 1955562222, 2024104815, 2227730452, 2361852424,
   2428436474, 2756734187, 3204031479, 3329325298]

/-- SHA-256 working state (eight 32-bit words). -/
structure SHAState where
  a : Nat
  b : Nat
  c : Nat
  d : Nat
  e : Nat
  f : Nat
  g : Nat
  h : Nat

/-- SHA-256 initial hash value (decimal). -/
def shaInit : SHAState :=
  ⟨1779033703, 3144134277, 1013904242, 2773480762,
   1359893119, 2600822924, 528734635, 1541459225⟩

/-- One SHA-256 compression round for a (constant, schedule word) pair. -/
def roundStep (st : SHAState) (kw : Nat × Nat) : SHAState :=
  let t1 := add32 st.h (add32 (bigSigma1 st.e) (add32 (shaCh st.e st.f st.g) (add32 kw.1 kw.2)))
  let t2 := add32 (bigSigma0 st.a) (shaMaj st.a st.b st.c)
  ⟨add32 t1 t2, st.a, st.b, st.c, add32 st.d t1, st.e, st.f, st.g⟩

/-- Big-endian packing of bytes into 32-bit words. -/
def bytesToWords : List Nat → List Nat
  | b0 :: b1 :: b2 :: b3 :: rest =>
      (b0 * 16777216 + b1 * 65536 + b2 * 256 + b3) :: bytesToWords rest
  | _ => []

/-- Iterate f at indices 0, 1, ..., n-1 (in that order). -/
def iterUp (f : Nat → α → α) : Nat → α → α
  | 0, a => a
  | n + 1, a => f n (iterUp f n a)

/-- Message-schedule expansion of 16 words to 64 words. -/
def schedule (m : List Nat) : List Nat :=
  iterUp
    (fun j acc =>
      acc ++ [add32 (add32 (smallSigma1 (acc.getD (j + 14) 0)) (acc.getD (j + 9) 0))
                (add32 (smallSigma0 (acc.getD (j + 1) 0)) (acc.getD j 0))])
    48 m

/-- Componentwise 32-bit addition of two states. -/
def addStates (s t : SHAState) : SHAState :=
  ⟨add32 s.a t.a, add32 s.b t.b, add32 s.c t.c, add32 s.d t.d,
   add32 s.e t.e, add32 s.f t.f, add32 s.g t.g, add32 s.h t.h⟩

/-- SHA-256 compression of one 64-byte block. -/
def compressBlock (st0 : SHAState) (block : List Nat) : SHAState :=
  addStates st0 ((shaK.zip (schedule (bytesToWords block))).foldl roundStep st0)

/-- Big-endian bytes (fixed width k) of a number. -/
def natToBytesBE : Nat → Nat → List Nat
  | 0, _ => []
  | k + 1, n => natToBytesBE k (n / 256) ++ [n % 256]

/-- SHA-256 padding: 0x80, zeros, then the 64-bit big-endian bit length. -/
def padMessage (msg : List Nat) : List Nat :=
  msg ++ 128 :: List.replicate ((119 - msg.length % 64) % 64) 0
      ++ natToBytesBE 8 (8 * msg.length)

/-- Split a byte list into 64-byte chunks (fuel-based structural recursion so
that the kernel can evaluate it). -/
def chunks64Fuel : Nat → List Nat → List (List Nat)
  | 0, _ => []
  | _, [] => []
  | fuel + 1, l => l.take 64 :: chunks64Fuel fuel (l.drop 64)

/-- Split a byte list into 64-byte chunks. -/
def chunks64 (l : List Nat) : List (List Nat) :=
  chunks64Fuel (l.length / 64 + 1) l

/-- Big-endian bytes of one 32-bit word. -/
def word2bytes (w : Nat) : List Nat :=
  [w / 16777216 % 256, w / 65536 % 256, w / 256 % 256, w % 256]

/-- The 32 digest bytes of a final state. -/
def digestOfState (st : SHAState) : List Nat :=
  word2bytes st.a ++ word2bytes st.b ++ word2bytes st.c ++ word2bytes st.d ++
  word2bytes st.e ++ word2bytes st.f ++ word2bytes st.g ++ word2bytes st.h

/-- SHA-256 digest (32 bytes) of a byte message. -/
def sha256Bytes (msg : List Nat) : List Nat :=
  digestOfState ((chunks64 (padMessage msg)).foldl compressBlock shaInit)

/-- Lowercase hexadecimal digit characters. -/
def hexAlphabet : List Char :=
  "0123456789abcdef".data

/-- Lowercase hexadecimal digit for a value below 16. -/
def hexChar (n : Nat) : Char :=
  if n < 10 then Char.ofNat (48 + n) else Char.ofNat (87 + n)

/-- Two hex characters per byte. -/
def hexOfBytes (bs : List Nat) : List Char :=
  listFlat (fun b => [hexChar (b / 16), hexChar (b % 16)]) bs

/-- UTF-8 encoding of one character. -/
def utf8EncodeChar (c : Char) : List Nat :=
  let n := c.toNat
  if n < 128 then [n]
  else if n < 2048 then [192 + n / 64, 128 + n % 64]
  else if n < 65536 then [224 + n / 4096, 128 + n / 64 % 64, 128 + n % 64]
  else [240 + n / 262144, 128 + n / 4096 % 64, 128 + n / 64 % 64, 128 + n % 64]

/-- UTF-8 bytes of a string (Python str.encode of the source). -/
def utf8Bytes (s : String) : List Nat :=
  listFlat utf8EncodeChar s.data

/-- Hexadecimal SHA-256 digest of a string, i.e. Python
hashlib.sha256(s.encode("utf-8")).hexdigest(). -/
def sha256Hex (s : String) : String :=
  String.mk (hexOfBytes (sha256Bytes (utf8Bytes s)))

/-- Python str.strip(): remove surrounding whitespace (character-list model,
kept kernel-reducible). -/
def pyStrip (s : String) : String :=
  String.mk (((s.data.dropWhile Char.isWhitespace).reverse.dropWhile Char.isWhitespace).reverse)

/-- Python str.lower() (ASCII model, as in Char.toLower). -/
def pyLower (s : String) : String :=
  String.mk (s.data.map Char.toLower)

/-- Normalization applied by sha256_token before hashing:
value.strip().lower(). -/
def normalizePII (s : String) : String :=
  pyLower (pyStrip s)

-- ===================== sha256_token =======================================

/-- Source sha256_token (lines 15-20): None/empty input yields None,
otherwise the hex SHA-256 digest of the stripped, lowercased value. -/
def sha256_token (value : Option String) : Option String :=
  match value with
  | none => none
  | some v => if v = "" then none else some (sha256Hex (normalizePII v))

/-- The sha256_token calls of lambda_handler receive whatever JSON value the
payload held. Python raises AttributeError (no .strip) on a truthy
non-string; a falsy value of any type yields None. -/
def sha256TokenJ : Json → Except String Json
  | v =>
    if v.isTruthy then
      match v with
      | .str s => .ok (.str (sha256Hex (normalizePII s)))
      | _ => .error "AttributeError"
    else .ok .null

-- ===================== Inbound request and raw body =======================

/-- Inbound request descriptor: headers mapping, body text, base64 flag. -/
structure Request where
  headers : List (String × String)
  body : String
  isBase64Encoded : Bool
deriving DecidableEq

/-- Base64 value of one alphabet character. -/
def b64Val (c : Char) : Option Nat :=
  if 65 ≤ c.toNat ∧ c.toNat ≤ 90 then some (c.toNat - 65)
  else if 97 ≤ c.toNat ∧ c.toNat ≤ 122 then some (c.toNat - 97 + 26)
  else if 48 ≤ c.toNat ∧ c.toNat ≤ 57 then some (c.toNat - 48 + 52)
  else if c = '+' then some 62
  else if c = '/' then some 63
  else none

/-- Model of base64.b64decode (validate=False): non-alphabet characters are
discarded, the remaining length must be a multiple of 4 (counting padding),
malformed padding raises binascii.Error (an unhandled exception in the
source, since get_raw_body runs outside the try block). -/
def base64Decode (s : String) : Except String (List Nat) :=
  let kept := s.data.filter (fun c => (b64Val c).isSome || c = '=')
  if kept.length % 4 != 0 then .error "binascii.Error"
  else
    let core := kept.takeWhile (fun c => c != '=')
    if kept.length - core.length > 2 then .error "binascii.Error"
    else
      let vals := core.filterMap b64Val
      let nbytes := vals.length * 6 / 8
      .ok (natToBytesBE nbytes ((vals.foldl (fun a v => a * 64 + v) 0) / 2 ^ (vals.length * 6 - nbytes * 8)))

/-- Source get_raw_body (lines 9-13): base64-decode when the request says so,
else the UTF-8 bytes of the body text. -/
def get_raw_body (req : Request) : Except String (List Nat) :=
  if req.isBase64Encoded then base64Decode req.body
  else .ok (utf8Bytes req.body)

-- ===================== Field derivation (source lines 57-77) ==============

/-- Source line 57: obj = (stripe_event.get("data") or {}).get("object") or {}.
Attribute access on a truthy non-mapping raises AttributeError; the final
`or {}` and the later obj.get calls mean a truthy non-mapping object also
raises at the first obj.get. -/
def extractObj (sev : List (String × Json)) : Except String (List (String × Json)) :=
  match pyOr (dictGet sev "data") (Json.obj []) with
  | .obj dfs =>
    match pyOr (dictGet dfs "object") (Json.obj []) with
    | .obj fs => .ok fs
    | _ => .error "AttributeError"
  | _ => .error "AttributeError"

/-- Source line 66: amount_minor := amount_received or amount or
amount_total or 0. -/
def amountMinor (fs : List (String × Json)) : Json :=
  pyOr (dictGet fs "amount_received")
    (pyOr (dictGet fs "amount") (pyOr (dictGet fs "amount_total") (.int 0)))

/-- Source line 70: payment_intent_id := obj.get("payment_intent") if
obj.get("object") != "payment_intent" else obj.get("id"). -/
def paymentIntentId (fs : List (String × Json)) : Json :=
  if isStrEq (dictGet fs "object") "payment_intent" then dictGet fs "id"
  else dictGet fs "payment_intent"

/-- Source line 71: charge_id := obj.get("charge") or obj.get("latest_charge"). -/
def chargeId (fs : List (String × Json)) : Json :=
  pyOr (dictGet fs "charge") (dictGet fs "latest_charge")

/-- Source lines 74-77: receipt_email resolution; cust_details.get("email")
raises AttributeError when customer_details is truthy but not a mapping. -/
def receiptEmail (fs : List (String × Json)) : Except String Json :=
  let re0 := pyOr (dictGet fs "receipt_email") (dictGet fs "customer_email")
  if re0.isTruthy then .ok re0
  else
    match pyOr (dictGet fs "customer_details") (Json.obj []) with
    | .obj cfs => .ok (dictGet cfs "email")
    | _ => .error "AttributeError"

/-- The Normalized Event document built at source lines 79-107 (et / ct are
the two pii tokens, computed beforehand in evaluation order). -/
def normalizedDoc (now : Nat) (sev fs : List (String × Json)) (et ct : Json) : Json :=
  Json.obj [
    ("provider", Json.str "stripe"),
    ("source", Json.str "webhook"),
    ("event_id", dictGet sev "id"),
    ("event_type", dictGet sev "type"),
    ("received_at", Json.int (Int.ofNat now)),
    ("transaction", Json.obj [
      ("transaction_id", dictGet fs "id"),
      ("amount_minor", amountMinor fs),
      ("currency", dictGet fs "currency"),
      ("status", dictGet fs "status"),
      ("created", dictGet fs "created")]),
    ("pii", Json.obj [
      ("email_token", et),
      ("customer_id_token", ct)]),
    ("refs", Json.obj [
      ("payment_intent_id", paymentIntentId fs),
      ("charge_id", chargeId fs),
      ("customer_id", dictGet fs "customer")])]

/-- Normalization of a verified event (source lines 56-107), in source
evaluation order; an AttributeError anywhere aborts the handler. -/
def buildNormalized (now : Nat) (sev : List (String × Json)) : Except String Json :=
  match extractObj sev with
  | .error e => .error e
  | .ok fs =>
    match receiptEmail fs with
    | .error e => .error e
    | .ok re =>
      match sha256TokenJ re with
      | .error e => .error e
      | .ok et =>
        match sha256TokenJ (dictGet fs "customer") with
        | .error e => .error e
        | .ok ct => .ok (normalizedDoc now sev fs et ct)

-- ===================== lambda_handler =====================================

/-- Outcome of the vendor verification call
stripe.Webhook.construct_event(payload, sig_header, secret): the parsed
top-level event mapping on success, SignatureVerificationError, or any
other exception (whose text str(e) the handler returns). -/
inductive VOutcome where
  | ok : List (String × Json) → VOutcome
  | sigError : VOutcome
  | verifyError : String → VOutcome

/-- HTTP-like response dict returned by the handler. -/
structure Response where
  statusCode : Nat
  headers : Option (List (String × String))
  body : String
deriving DecidableEq

/-- A handler run either returns a response or raises an unhandled
exception. -/
inductive HResp where
  | resp : Response → HResp
  | crash : String → HResp

/-- Observable outcome of one invocation: the response (or crash), the
Normalized Event documents printed (source line 109), and what the
verification call returned (none when verification was never attempted). -/
structure HOut where
  result : HResp
  emitted : List Json
  verifyOutcome : Option VOutcome

/-- Python truthiness of headers.get results (None or a string). -/
def optTruthy : Option String → Bool
  | none => false
  | some s => s != ""

/-- Python dict.get on the headers mapping. -/
def headerGet (hs : List (String × String)) (k : String) : Option String :=
  match hs with
  | [] => none
  | (n, v) :: rest => if n = k then some v else headerGet rest k

/-- Source lines 30-34: sig_header = headers.get("stripe-signature") or
headers.get("Stripe-Signature"); none exactly when that value is falsy
(the 400 path). -/
def sigOf (req : Request) : Option String :=
  let h1 := headerGet req.headers "stripe-signature"
  let h2 := headerGet req.headers "Stripe-Signature"
  let s := if optTruthy h1 then h1 else h2
  if optTruthy s then s else none

/-- Continuation of the handler after the verification call (source lines
39-116): 401 on SignatureVerificationError, 500 with the exception text on
any other exception, otherwise normalization, one emitted document and the
200 acknowledgment. -/
def afterVerify (now : Nat) (vo : VOutcome) : HOut :=
  match vo with
  | .sigError => ⟨.resp ⟨401, none, "Invalid signature"⟩, [], some .sigError⟩
  | .verifyError m => ⟨.resp ⟨500, none, m⟩, [], some (.verifyError m)⟩
  | .ok ev =>
    match buildNormalized now ev with
    | .error m => ⟨.crash m, [], some (.ok ev)⟩
    | .ok doc =>
      ⟨.resp ⟨200, some [("Content-Type", "application/json")], "\x7b\"ok\": true\x7d"⟩,
       [doc], some (.ok ev)⟩

/-- Source lambda_handler (lines 23-116). The verification capability is a
parameter taking (payload bytes, signature header, secret); now is the
epoch-seconds clock reading. -/
def lambda_handler (secret : Option String) (verify : List Nat → String → String → VOutcome)
    (now : Nat) (req : Request) : HOut :=
  match secret with
  | none => ⟨.resp ⟨500, none, "Missing STRIPE_WEBHOOK_SECRET env"⟩, [], none⟩
  | some sec =>
    if sec = "" then ⟨.resp ⟨500, none, "Missing STRIPE_WEBHOOK_SECRET env"⟩, [], none⟩
    else
      match sigOf req with
      | none => ⟨.resp ⟨400, none, "Missing stripe-signature header"⟩, [], none⟩
      | some sv =>
        match get_raw_body req with
        | .error e => ⟨.crash e, [], none⟩
        | .ok payload => afterVerify now (verify payload sv sec)

-- ===================== Spec-side vocabulary ===============================

/-- First truthy (non-empty/non-zero/non-null) value of a candidate list,
else a default: the spec's first non-empty fallback chains. -/
def firstNonEmpty (l : List Json) (dflt : Json) : Json :=
  match l.find? Json.isTruthy with
  | some v => v
  | none => dflt

/-- The three amount candidate fields, in the spec's order. -/
def amountCandidates (fs : List (String × Json)) : List Json :=
  [dictGet fs "amount_received", dictGet fs "amount", dictGet fs "amount_total"]

/-- The email field nested inside the object's customer_details mapping
(null when customer_details is absent, falsy, or not a mapping). -/
def nestedEmail (fs : List (String × Json)) : Json :=
  match pyOr (dictGet fs "customer_details") (Json.obj []) with
  | .obj cfs => dictGet cfs "email"
  | _ => .null

/-- The three receipt-email candidates, in the spec's order. -/
def emailCandidates (fs : List (String × Json)) : List Json :=
  [dictGet fs "receipt_email", dictGet fs "customer_email", nestedEmail fs]

/-- Whether the object's customer_details value is a mapping after the
`or {}` defaulting (i.e. absent, falsy, or a mapping). -/
def custDetailsOk (fs : List (String × Json)) : Bool :=
  match pyOr (dictGet fs "customer_details") (Json.obj []) with
  | .obj _ => true
  | _ => false

/-- Field access on a JSON document (null when absent or not an object). -/
def jGet : Json → String → Json
  | .obj fs, k => dictGet fs k
  | _, _ => .null

/-- A pii field is either absent (null) or the one-way SHA-256 hex digest of
the normalized (stripped, lowercased) input value. -/
def tokenShape (t : Json) : Prop :=
  t = Json.null ∨ ∃ s : String, t = Json.str (sha256Hex (normalizePII s))

/-- Verification was attempted and succeeded in a handler run. -/
def verifySucceeded (out : HOut) : Prop :=
  ∃ ev, out.verifyOutcome = some (VOutcome.ok ev)

-- ===================== Shared lemmas ======================================

theorem isStrEq_iff (v : Json) (t : String) : isStrEq v t = true ↔ v = Json.str t := by
  cases v <;> simp [isStrEq]

theorem headerGet_mem {hs : List (String × String)} {k v : String}
    (h : headerGet hs k = some v) : (k, v) ∈ hs := by
  induction hs with
  | nil => simp [headerGet] at h
  | cons p rest ih =>
    obtain ⟨n, w⟩ := p
    rw [headerGet] at h
    by_cases hk : n = k
    · rw [if_pos hk] at h
      injection h with h
      rw [← hk, ← h]
      exact List.mem_cons_self _ _
    · rw [if_neg hk] at h
      exact List.mem_cons_of_mem _ (ih h)

theorem word2bytes_length (w : Nat) : (word2bytes w).length = 4 := by
  simp [word2bytes]

theorem digestOfState_length (st : SHAState) : (digestOfState st).length = 32 := by
  simp [digestOfState, word2bytes]

theorem sha256Bytes_length (m : List Nat) : (sha256Bytes m).length = 32 :=
  digestOfState_length _

theorem listFlat_length_two (f : α → List β) (hf : ∀ a, (f a).length = 2)
    (l : List α) : (listFlat f l).length = 2 * l.length := by
  induction l with
  | nil => simp [listFlat]
  | cons a as ih => simp [listFlat, hf, ih]; omega

theorem hexOfBytes_length (bs : List Nat) : (hexOfBytes bs).length = 2 * bs.length := by
  unfold hexOfBytes
  exact listFlat_length_two (fun b => [hexChar (b / 16), hexChar (b % 16)]) (fun _ => rfl) bs

theorem sha256Hex_length (s : String) : (sha256Hex s).length = 64 := by
  show (hexOfBytes (sha256Bytes (utf8Bytes s))).length = 64
  rw [hexOfBytes_length, sha256Bytes_length]

theorem hexChar_mem_of_lt : ∀ n < 16, hexChar n ∈ hexAlphabet := by decide

theorem word2bytes_lt (w : Nat) : ∀ b ∈ word2bytes w, b < 256 := by
  intro b hb
  simp [word2bytes] at hb
  rcases hb with rfl | rfl | rfl | rfl <;> exact Nat.mod_lt _ (by norm_num)

theorem digestOfState_lt (st : SHAState) : ∀ b ∈ digestOfState st, b < 256 := by
  intro b hb
  simp only [digestOfState, List.mem_append] at hb
  rcases hb with ((((((h | h) | h) | h) | h) | h) | h) | h <;> exact word2bytes_lt _ _ h

theorem hexOfBytes_mem (bs : List Nat) (hbs : ∀ b ∈ bs, b < 256) :
    ∀ c ∈ hexOfBytes bs, c ∈ hexAlphabet := by
  induction bs with
  | nil => intro c hc; simp [hexOfBytes, listFlat] at hc
  | cons b rest ih =>
    intro c hc
    have hb : b < 256 := hbs b (List.mem_cons_self _ _)
    simp only [hexOfBytes, listFlat, List.mem_append] at hc
    rcases hc with hc | hc
    · simp at hc
      rcases hc with rfl | rfl
      · exact hexChar_mem_of_lt _ (by omega)
      · exact hexChar_mem_of_lt _ (Nat.mod_lt _ (by norm_num))
    · exact ih (fun x hx => hbs x (List.mem_cons_of_mem _ hx)) c hc

theorem sha256Hex_chars (s : String) : ∀ c ∈ (sha256Hex s).data, c ∈ hexAlphabet := by
  intro c hc
  exact hexOfBytes_mem _ (digestOfState_lt _) c hc

theorem sha256TokenJ_shape {v t : Json} (h : sha256TokenJ v = .ok t) : tokenShape t := by
  unfold sha256TokenJ at h
  by_cases hv : v.isTruthy
  · rw [if_pos hv] at h
    cases v with
    | str s =>
      injection h with h
      exact Or.inr ⟨s, h.symm⟩
    | null => exact absurd h (by simp)
    | bool b => exact absurd h (by simp)
    | int n => exact absurd h (by simp)
    | arr xs => exact absurd h (by simp)
    | obj fs => exact absurd h (by simp)
  · rw [if_neg hv] at h
    injection h with h
    exact Or.inl h.symm

/-- Whether an Except computation succeeded. -/
def isOkE : Except String Json → Bool
  | .ok _ => true
  | .error _ => false

theorem handler_400 {sec : String} (hsec : sec ≠ "")
    (verify : List Nat → String → String → VOutcome) (now : Nat) {req : Request}
    (hs : sigOf req = none) :
    lambda_handler (some sec) verify now req =
      ⟨HResp.resp ⟨400, none, "Missing stripe-signature header"⟩, [], none⟩ := by
  simp only [lambda_handler]
  rw [if_neg hsec, hs]

theorem handler_body_crash {sec : String} (hsec : sec ≠ "")
    (verify : List Nat → String → String → VOutcome) (now : Nat) {req : Request}
    {sv : String} (hs : sigOf req = some sv) {e : String}
    (hb : get_raw_body req = .error e) :
    lambda_handler (some sec) verify now req = ⟨HResp.crash e, [], none⟩ := by
  simp only [lambda_handler]
  rw [if_neg hsec, hs, hb]

theorem handler_verify {sec : String} (hsec : sec ≠ "")
    (verify : List Nat → String → String → VOutcome) (now : Nat) {req : Request}
    {sv : String} (hs : sigOf req = some sv) {payload : List Nat}
    (hb : get_raw_body req = .ok payload) :
    lambda_handler (some sec) verify now req = afterVerify now (verify payload sv sec) := by
  simp only [lambda_handler]
  rw [if_neg hsec, hs, hb]

-- ===================== Claims =============================================

/-- Claim C4 (confirmed): for every request, when the shared secret is absent
from the environment configuration, lambda_handler returns HTTP 500
immediately, emits no normalized event, and never attempts signature
verification, regardless of the request headers, body, base64 flag, clock,
or the behaviour of the verification capability. -/
theorem c4_missing_secret_500 (verify : List Nat → String → String → VOutcome)
    (now : Nat) (req : Request) :
    lambda_handler none verify now req =
      ⟨HResp.resp ⟨500, none, "Missing STRIPE_WEBHOOK_SECRET env"⟩, [], none⟩ := rfl

/-- Claim C8 (confirmed): sha256_token is deterministic and normalizes before
hashing: a non-empty value is mapped to the fixed-length (64-character)
hexadecimal SHA-256 digest of the stripped, lowercased value, so the token
of " Foo@Bar.com " equals the token of "foo@bar.com"; an absent or
empty-string value yields an absent token, not a hash of the empty
string. -/
theorem c8_tokenization :
    (∀ s : String, s ≠ "" →
        sha256_token (some s) = some (sha256Hex (normalizePII s)) ∧
        (sha256Hex (normalizePII s)).length = 64 ∧
        ∀ c ∈ (sha256Hex (normalizePII s)).data, c ∈ hexAlphabet) ∧
    sha256_token (some " Foo@Bar.com ") = sha256_token (some "foo@bar.com") ∧
    sha256_token none = none ∧ sha256_token (some "") = none := by
  refine ⟨fun s hs => ⟨by simp [sha256_token, hs], sha256Hex_length _, sha256Hex_chars _⟩,
    rfl, rfl, rfl⟩

/-- Witness for C8 at the value "a". -/
theorem c8_tokenization_witness :
    ("a" : String) ≠ "" ∧ sha256_token (some "a") = some (sha256Hex (normalizePII "a")) :=
  ⟨by decide, (c8_tokenization.1 "a" (by decide)).1⟩

/-- Counterexample to C5 as stated: with amount_received bound to the string
"x", amount_minor is that string, not an integer. -/
theorem c5_counterexample :
    amountMinor [("amount_received", Json.str "x")] = Json.str "x" ∧
    (amountMinor [("amount_received", Json.str "x")]).isInt = false :=
  ⟨rfl, rfl⟩

/-- Claim C5 (corrected): amount_minor equals the first truthy
(non-null/non-zero/non-empty) value among amount_received, amount,
amount_total and the integer 0 when none is truthy; it is an integer
whenever every present amount candidate is an integer or falsy, but a
truthy non-integer candidate is passed through unchanged. -/
theorem c5_amount_minor (fs : List (String × Json)) :
    amountMinor fs = firstNonEmpty (amountCandidates fs) (Json.int 0) ∧
    (((amountCandidates fs).all fun v => !v.isTruthy || v.isInt) = true →
      (amountMinor fs).isInt = true) := by
  cases h1 : (dictGet fs "amount_received").isTruthy <;>
  cases h2 : (dictGet fs "amount").isTruthy <;>
  cases h3 : (dictGet fs "amount_total").isTruthy <;>
  simp [amountMinor, firstNonEmpty, amountCandidates, pyOr, List.find?, h1, h2, h3,
    Json.isInt] <;> tauto

/-- Witness for C5 at an object with amount_received = 1000 and at an object
with no amount fields. -/
theorem c5_amount_minor_witness :
    amountMinor [("amount_received", Json.int 1000)] =
      firstNonEmpty (amountCandidates [("amount_received", Json.int 1000)]) (Json.int 0) ∧
    (amountMinor [("amount_received", Json.int 1000)]).isInt = true ∧
    amountMinor [] = firstNonEmpty (amountCandidates []) (Json.int 0) ∧
    (amountMinor []).isInt = true :=
  ⟨(c5_amount_minor [("amount_received", Json.int 1000)]).1,
   (c5_amount_minor [("amount_received", Json.int 1000)]).2 (by decide),
   (c5_amount_minor []).1,
   (c5_amount_minor []).2 (by decide)⟩

/-- Claim C6 (confirmed): payment_intent_id equals the object's own id when
the object's own type tag (its "object" field) is "payment_intent" —
whatever any payment_intent field holds — and otherwise equals the object's
payment_intent field. -/
theorem c6_payment_intent_id (fs : List (String × Json)) :
    (dictGet fs "object" = Json.str "payment_intent" →
      paymentIntentId fs = dictGet fs "id") ∧
    (dictGet fs "object" ≠ Json.str "payment_intent" →
      paymentIntentId fs = dictGet fs "payment_intent") := by
  constructor
  · intro h
    rw [paymentIntentId, if_pos ((isStrEq_iff _ _).mpr h)]
  · intro h
    rw [paymentIntentId, if_neg (fun hh => h ((isStrEq_iff _ _).mp hh))]

/-- Witness for C6: a payment_intent object with id "pi_1" and a conflicting
payment_intent field "pi_2" resolves to "pi_1"; a different object type
with payment_intent "pi_2" resolves to "pi_2". -/
theorem c6_payment_intent_id_witness :
    paymentIntentId [("object", Json.str "payment_intent"), ("id", Json.str "pi_1"),
        ("payment_intent", Json.str "pi_2")] = Json.str "pi_1" ∧
    paymentIntentId [("object", Json.str "charge"), ("payment_intent", Json.str "pi_2")] =
      Json.str "pi_2" :=
  ⟨(c6_payment_intent_id _).1 rfl, (c6_payment_intent_id _).2 (by simp [dictGet])⟩

/-- Counterexample to C2 as stated: a request carrying the signature header
under the casing "STRIPE-SIGNATURE" (case-insensitively equal to the
provider header name) with a non-empty value is still answered with HTTP
400, because the source only looks up the two literal casings
"stripe-signature" and "Stripe-Signature". -/
theorem c2_counterexample :
    (lambda_handler (some "k") (fun _ _ _ => VOutcome.sigError) 0
        ⟨[("STRIPE-SIGNATURE", "t=1,v1=ab")], "abc", false⟩).result =
      HResp.resp ⟨400, none, "Missing stripe-signature header"⟩ ∧
    pyLower "STRIPE-SIGNATURE" = pyLower "stripe-signature" ∧
    ("t=1,v1=ab" : String) ≠ "" :=
  ⟨rfl, by decide, by decide⟩

/-- Claim C2 (corrected): given a configured secret, the handler returns HTTP
400 if and only if neither the literal header key "stripe-signature" nor
"Stripe-Signature" carries a non-empty value (the lookup accepts exactly
these two casings, not arbitrary casing); on the 400 path nothing is
emitted, verification is never attempted, and the result is independent of
the request body. -/
theorem c2_missing_header_400 (sec : String) (hsec : sec ≠ "")
    (verify : List Nat → String → String → VOutcome) (now : Nat) (req : Request) :
    ((lambda_handler (some sec) verify now req).result =
        HResp.resp ⟨400, none, "Missing stripe-signature header"⟩ ↔ sigOf req = none) ∧
    (sigOf req = none →
      lambda_handler (some sec) verify now req =
        ⟨HResp.resp ⟨400, none, "Missing stripe-signature header"⟩, [], none⟩) ∧
    (∀ b : String, ∀ flag : Bool, sigOf ⟨req.headers, b, flag⟩ = sigOf req) := by
  refine ⟨?_, fun hs => handler_400 hsec verify now hs, fun b flag => rfl⟩
  cases hs : sigOf req with
  | none => simp [handler_400 hsec verify now hs]
  | some sv =>
    cases hb : get_raw_body req with
    | error e => simp [handler_body_crash hsec verify now hs hb]
    | ok payload =>
      rw [handler_verify hsec verify now hs hb]
      cases hv : verify payload sv sec with
      | sigError => simp [afterVerify]
      | verifyError m => simp [afterVerify]
      | ok ev =>
        cases hbn : buildNormalized now ev with
        | error m => simp [afterVerify, hbn]
        | ok doc => simp [afterVerify, hbn]

/-- Witness for the corrected C2 at a request with no headers at all. -/
theorem c2_missing_header_400_witness :
    ((lambda_handler (some "k") (fun _ _ _ => VOutcome.sigError) 0
        (⟨[], "abc", false⟩ : Request)).result =
        HResp.resp ⟨400, none, "Missing stripe-signature header"⟩ ↔
      sigOf (⟨[], "abc", false⟩ : Request) = none) ∧
    (sigOf (⟨[], "abc", false⟩ : Request) = none →
      lambda_handler (some "k") (fun _ _ _ => VOutcome.sigError) 0
          (⟨[], "abc", false⟩ : Request) =
        ⟨HResp.resp ⟨400, none, "Missing stripe-signature header"⟩, [], none⟩) ∧
    (∀ b : String, ∀ flag : Bool,
      sigOf ⟨[], b, flag⟩ = sigOf (⟨[], "abc", false⟩ : Request)) :=
  c2_missing_header_400 "k" (by decide) (fun _ _ _ => VOutcome.sigError) 0 ⟨[], "abc", false⟩

/-- Claim C3 (confirmed): with the secret configured and a signature header
found, a SignatureVerificationError from the verification capability yields
HTTP 401 with no normalized event built or emitted, and any other
exception yields HTTP 500 whose body is the exception text. -/
theorem c3_verification_failure_responses (sec : String) (hsec : sec ≠ "")
    (verify : List Nat → String → String → VOutcome) (now : Nat) (req : Request)
    (sv : String) (hs : sigOf req = some sv)
    (payload : List Nat) (hb : get_raw_body req = .ok payload) :
    (verify payload sv sec = VOutcome.sigError →
      lambda_handler (some sec) verify now req =
        ⟨HResp.resp ⟨401, none, "Invalid signature"⟩, [], some VOutcome.sigError⟩) ∧
    (∀ m, verify payload sv sec = VOutcome.verifyError m →
      lambda_handler (some sec) verify now req =
        ⟨HResp.resp ⟨500, none, m⟩, [], some (VOutcome.verifyError m)⟩) := by
  rw [handler_verify hsec verify now hs hb]
  constructor
  · intro hv
    rw [hv]
    rfl
  · intro m hv
    rw [hv]
    rfl

/-- Witness for C3: a signature mismatch and a generic verification error on
a concrete signed-looking request. -/
theorem c3_verification_failure_responses_witness :
    lambda_handler (some "k") (fun _ _ _ => VOutcome.sigError) 0
        ⟨[("stripe-signature", "t")], "abc", false⟩ =
      ⟨HResp.resp ⟨401, none, "Invalid signature"⟩, [], some VOutcome.sigError⟩ ∧
    lambda_handler (some "k") (fun _ _ _ => VOutcome.verifyError "boom") 0
        ⟨[("stripe-signature", "t")], "abc", false⟩ =
      ⟨HResp.resp ⟨500, none, "boom"⟩, [], some (VOutcome.verifyError "boom")⟩ :=
  ⟨(c3_verification_failure_responses "k" (by decide) (fun _ _ _ => VOutcome.sigError) 0
      ⟨[("stripe-signature", "t")], "abc", false⟩ "t" rfl (utf8Bytes "abc") rfl).1 rfl,
   (c3_verification_failure_responses "k" (by decide) (fun _ _ _ => VOutcome.verifyError "boom") 0
      ⟨[("stripe-signature", "t")], "abc", false⟩ "t" rfl (utf8Bytes "abc") rfl).2 "boom" rfl⟩

/-- Claim C10 (confirmed): given a configured secret, a request whose
provider signature header (under any casing) is present only with
empty-string values is treated as missing: HTTP 400, nothing emitted, and
verification never attempted. -/
theorem c10_empty_signature_400 (sec : String) (hsec : sec ≠ "")
    (verify : List Nat → String → String → VOutcome) (now : Nat) (req : Request)
    (_hpresent : ∃ p ∈ req.headers, pyLower p.1 = "stripe-signature")
    (hempty : ∀ p ∈ req.headers, pyLower p.1 = "stripe-signature" → p.2 = "") :
    lambda_handler (some sec) verify now req =
      ⟨HResp.resp ⟨400, none, "Missing stripe-signature header"⟩, [], none⟩ := by
  have hlow1 : pyLower "stripe-signature" = "stripe-signature" := by decide
  have hlow2 : pyLower "Stripe-Signature" = "stripe-signature" := by decide
  have e1 : optTruthy (headerGet req.headers "stripe-signature") = false := by
    cases hg : headerGet req.headers "stripe-signature" with
    | none => rfl
    | some v =>
      have hv : v = "" := hempty ("stripe-signature", v) (headerGet_mem hg) hlow1
      simp [optTruthy, hv]
  have e2 : optTruthy (headerGet req.headers "Stripe-Signature") = false := by
    cases hg : headerGet req.headers "Stripe-Signature" with
    | none => rfl
    | some v =>
      have hv : v = "" := hempty ("Stripe-Signature", v) (headerGet_mem hg) hlow2
      simp [optTruthy, hv]
  have hnone : sigOf req = none := by
    simp [sigOf, e1, e2]
  exact handler_400 hsec verify now hnone

/-- Witness for C10: the signature header present with an empty value. -/
theorem c10_empty_signature_400_witness :
    lambda_handler (some "k") (fun _ _ _ => VOutcome.sigError) 0
        ⟨[("Stripe-Signature", "")], "abc", false⟩ =
      ⟨HResp.resp ⟨400, none, "Missing stripe-signature header"⟩, [], none⟩ :=
  c10_empty_signature_400 "k" (by decide) _ 0 _
    ⟨("Stripe-Signature", ""), by decide, by decide⟩ (by decide)

/-- Claim C7 (confirmed): provided the direct email fields carry a value or
customer_details is absent, falsy, or a mapping (a truthy non-mapping
customer_details makes the source raise instead), receipt_email is the
first non-empty value among the object's receipt_email, customer_email and
the email nested in customer_details, and is falsy (absent) when all three
are absent or empty. -/
theorem c7_receipt_email (fs : List (String × Json))
    (hcd : (pyOr (dictGet fs "receipt_email") (dictGet fs "customer_email")).isTruthy = true ∨
      custDetailsOk fs = true) :
    ∃ r, receiptEmail fs = .ok r ∧
      ((emailCandidates fs).any Json.isTruthy = true →
        r = firstNonEmpty (emailCandidates fs) Json.null) ∧
      ((emailCandidates fs).any Json.isTruthy = false → r.isTruthy = false) := by
  cases h1 : (dictGet fs "receipt_email").isTruthy with
  | true =>
    refine ⟨dictGet fs "receipt_email", ?_, ?_, ?_⟩
    · simp [receiptEmail, pyOr, h1]
    · intro _
      simp [firstNonEmpty, emailCandidates, List.find?, h1]
    · intro hany
      simp [emailCandidates, h1] at hany
  | false =>
    cases h2 : (dictGet fs "customer_email").isTruthy with
    | true =>
      refine ⟨dictGet fs "customer_email", ?_, ?_, ?_⟩
      · simp [receiptEmail, pyOr, h1, h2]
      · intro _
        simp [firstNonEmpty, emailCandidates, List.find?, h1, h2]
      · intro hany
        simp [emailCandidates, h2] at hany
    | false =>
      have hfal : (pyOr (dictGet fs "receipt_email")
          (dictGet fs "customer_email")).isTruthy = false := by
        simp [pyOr, h1, h2]
      have hcd2 : custDetailsOk fs = true := by
        rcases hcd with hl | hr
        · rw [hfal] at hl
          cases hl
        · exact hr
      cases hm : pyOr (dictGet fs "customer_details") (Json.obj []) with
      | obj cfs =>
        have hne : nestedEmail fs = dictGet cfs "email" := by
          unfold nestedEmail
          rw [hm]
        refine ⟨dictGet cfs "email", ?_, ?_, ?_⟩
        · unfold receiptEmail
          rw [if_neg (by simp [hfal]), hm]
        · intro hany
          cases h3 : (dictGet cfs "email").isTruthy with
          | true => simp [firstNonEmpty, emailCandidates, List.find?, h1, h2, hne, h3]
          | false => simp [emailCandidates, h1, h2, hne, h3] at hany
        · intro hany
          simp [emailCandidates, h1, h2, hne] at hany
          exact hany
      | null => simp [custDetailsOk, hm] at hcd2
      | bool b => simp [custDetailsOk, hm] at hcd2
      | int n => simp [custDetailsOk, hm] at hcd2
      | str s => simp [custDetailsOk, hm] at hcd2
      | arr xs => simp [custDetailsOk, hm] at hcd2

/-- Witness for C7 at an object whose only email is nested inside
customer_details. -/
theorem c7_receipt_email_witness :
    ∃ r, receiptEmail [("customer_details", Json.obj [("email", Json.str "a@b.c")])] = .ok r ∧
      ((emailCandidates [("customer_details", Json.obj [("email", Json.str "a@b.c")])]).any
          Json.isTruthy = true →
        r = firstNonEmpty
          (emailCandidates [("customer_details", Json.obj [("email", Json.str "a@b.c")])])
          Json.null) ∧
      ((emailCandidates [("customer_details", Json.obj [("email", Json.str "a@b.c")])]).any
          Json.isTruthy = false → r.isTruthy = false) :=
  c7_receipt_email [("customer_details", Json.obj [("email", Json.str "a@b.c")])] (Or.inr rfl)

/-- Claim C9 (confirmed): every normalized document's pii section holds
exactly an email_token and a customer_id_token, and each of them is either
absent (null) or the one-way SHA-256 hex digest of the normalized
(stripped, lowercased) source value — never a raw value; the program
contains no inverse of the digest. -/
theorem c9_pii_tokens_only (now : Nat) (sev : List (String × Json)) (doc : Json)
    (h : buildNormalized now sev = .ok doc) :
    ∃ et ct, jGet doc "pii" = Json.obj [("email_token", et), ("customer_id_token", ct)] ∧
      tokenShape et ∧ tokenShape ct := by
  unfold buildNormalized at h
  cases hx : extractObj sev with
  | error e => simp [hx] at h
  | ok fs =>
    simp only [hx] at h
    cases hre : receiptEmail fs with
    | error e => simp [hre] at h
    | ok re =>
      simp only [hre] at h
      cases het : sha256TokenJ re with
      | error e => simp [het] at h
      | ok et =>
        simp only [het] at h
        cases hct : sha256TokenJ (dictGet fs "customer") with
        | error e => simp [hct] at h
        | ok ct =>
          simp only [hct] at h
          injection h with h
          subst h
          exact ⟨et, ct, rfl, sha256TokenJ_shape het, sha256TokenJ_shape hct⟩

/-- Witness for C9 at the empty verified event. -/
theorem c9_pii_tokens_only_witness :
    ∃ et ct, jGet (normalizedDoc 0 [] [] Json.null Json.null) "pii" =
        Json.obj [("email_token", et), ("customer_id_token", ct)] ∧
      tokenShape et ∧ tokenShape ct :=
  c9_pii_tokens_only 0 [] (normalizedDoc 0 [] [] Json.null Json.null) rfl

/-- Counterexample to C1 as stated: a request whose signature verification
succeeds with a payload whose data field is the string "x" makes the
handler raise AttributeError: verification succeeded, yet no normalized
event is emitted and no HTTP 200 is returned. -/
theorem c1_counterexample :
    (lambda_handler (some "k") (fun _ _ _ => VOutcome.ok [("data", Json.str "x")]) 0
        ⟨[("stripe-signature", "t")], "abc", false⟩).verifyOutcome =
      some (VOutcome.ok [("data", Json.str "x")]) ∧
    (lambda_handler (some "k") (fun _ _ _ => VOutcome.ok [("data", Json.str "x")]) 0
        ⟨[("stripe-signature", "t")], "abc", false⟩).emitted = [] ∧
    (lambda_handler (some "k") (fun _ _ _ => VOutcome.ok [("data", Json.str "x")]) 0
        ⟨[("stripe-signature", "t")], "abc", false⟩).result = HResp.crash "AttributeError" :=
  ⟨rfl, rfl, rfl⟩

/-- Claim C1 (corrected): given a configured secret and provided
normalization cannot fault on the events the verification capability can
return (its data, data.object and — when needed — customer_details values
are mappings or falsy, and the email / customer values are strings or
falsy), the handler emits exactly one Normalized Event document when and
only when signature verification succeeds, and on success returns HTTP 200
with body given by json.dumps of ok=true and the JSON content-type
header. -/
theorem c1_success_emission (sec : String) (hsec : sec ≠ "")
    (verify : List Nat → String → String → VOutcome) (now : Nat) (req : Request)
    (hx : ∀ payload sv ev, verify payload sv sec = VOutcome.ok ev →
      isOkE (buildNormalized now ev) = true) :
    ((lambda_handler (some sec) verify now req).emitted.length = 1 ↔
      verifySucceeded (lambda_handler (some sec) verify now req)) ∧
    (∀ ev, (lambda_handler (some sec) verify now req).verifyOutcome =
        some (VOutcome.ok ev) →
      ∃ doc, buildNormalized now ev = .ok doc ∧
        (lambda_handler (some sec) verify now req).emitted = [doc] ∧
        (lambda_handler (some sec) verify now req).result =
          HResp.resp ⟨200, some [("Content-Type", "application/json")],
            "\x7b\"ok\": true\x7d"⟩) := by
  cases hs : sigOf req with
  | none =>
    rw [handler_400 hsec verify now hs]
    simp [verifySucceeded]
  | some sv =>
    cases hb : get_raw_body req with
    | error e =>
      rw [handler_body_crash hsec verify now hs hb]
      simp [verifySucceeded]
    | ok payload =>
      rw [handler_verify hsec verify now hs hb]
      cases hv : verify payload sv sec with
      | sigError => simp [afterVerify, verifySucceeded]
      | verifyError m => simp [afterVerify, verifySucceeded]
      | ok ev =>
        have hok := hx payload sv ev hv
        cases hbn : buildNormalized now ev with
        | error m => simp [hbn, isOkE] at hok
        | ok doc =>
          constructor
          · simp [afterVerify, hbn, verifySucceeded]
          · intro ev2 hev2
            simp only [afterVerify, hbn] at hev2
            injection hev2 with hev2
            injection hev2 with hev2
            subst hev2
            exact ⟨doc, hbn, by simp [afterVerify, hbn], by simp [afterVerify, hbn]⟩

/-- Witness for the corrected C1 on a concrete request whose verification
succeeds with the empty event object. -/
theorem c1_success_emission_witness :
    ((lambda_handler (some "k") (fun _ _ _ => VOutcome.ok []) 0
        (⟨[("stripe-signature", "t")], "abc", false⟩ : Request)).emitted.length = 1 ↔
      verifySucceeded (lambda_handler (some "k") (fun _ _ _ => VOutcome.ok []) 0
        ⟨[("stripe-signature", "t")], "abc", false⟩)) ∧
    (∀ ev, (lambda_handler (some "k") (fun _ _ _ => VOutcome.ok []) 0
        (⟨[("stripe-signature", "t")], "abc", false⟩ : Request)).verifyOutcome =
          some (VOutcome.ok ev) →
      ∃ doc, buildNormalized 0 ev = .ok doc ∧
        (lambda_handler (some "k") (fun _ _ _ => VOutcome.ok []) 0
          (⟨[("stripe-signature", "t")], "abc", false⟩ : Request)).emitted = [doc] ∧
        (lambda_handler (some "k") (fun _ _ _ => VOutcome.ok []) 0
          (⟨[("stripe-signature", "t")], "abc", false⟩ : Request)).result =
            HResp.resp ⟨200, some [("Content-Type", "application/json")],
              "\x7b\"ok\": true\x7d"⟩) :=
  c1_success_emission "k" (by decide) (fun _ _ _ => VOutcome.ok []) 0
    ⟨[("stripe-signature", "t")], "abc", false⟩
    (by
      intro p sv ev h
      injection h with h
      rw [← h]
      rfl)

end StripeWebhook
